import Mathlib

/-!
Verification of the Visibility & Pass-Prediction Engine of the
SatelliteTracker repository.

The engine lives in `client/src/lib/consts.ts` (visibility evaluator
`isSatelliteVisible`, pass scanner `calculateSatellitePasses`, compass
bucketing `getDirection`), `client/src/lib/satellite-utils.ts`
(`calculateSatellitePosition`, `isSatelliteVisibleFromLocation`,
`latLonToCartesian`) and `client/src/components/Satellite.tsx` (the
projection-based cone test `isInCone` driving the cone highlight).

Modelling conventions:
* JavaScript numbers that only ever flow through field arithmetic and
  comparisons are modelled as exact rationals `ℚ`; the external
  `satellite.js` library (TLE parsing, SGP4 propagation, sidereal time,
  ECI-to-geodetic conversion) and the transcendental `Math` functions
  (`Math.atan2`, `Math.sqrt`, `Math.PI`) are abstract parameters, so every
  theorem below holds for every interpretation of those black boxes.
* `Date` values are their millisecond epoch time, an integer `ℤ`; the
  scanner's `time.setMinutes(time.getMinutes() + 1)` advances the epoch
  time by exactly 60000 ms (time-zone/DST wall-clock anomalies are out of
  scope).
* A thrown JavaScript exception from the propagation black box is the
  `PropResult.throws` constructor; the `try { ... } catch` blocks of the
  source are the corresponding `match` arms.
* The real-valued trigonometric geometry of `satellite-utils.ts`
  (`Math.cos`, `Math.sin`, `Math.acos`) is modelled over `ℝ`.
-/

namespace SatTrack

set_option maxRecDepth 40000

attribute [local semireducible] Rat.add Rat.mul Rat.sub Rat.inv

/-- Three-dimensional vector with scalar type `α` (THREE.Vector3 / the
`{x, y, z}` position records of satellite.js). -/
structure Vec3 (α : Type) where
  x : α
  y : α
  z : α
deriving DecidableEq

/-- Geodetic coordinates as returned by `satelliteJs.eciToGeodetic`. -/
structure Geodetic (α : Type) where
  latitude : α
  longitude : α
  height : α
deriving DecidableEq

/-- Outcome of `satelliteJs.propagate(satrec, time)`: a thrown exception,
a result with no `position` field, or a position vector. -/
inductive PropResult (α : Type) where
  | throws : PropResult α
  | noPosition : PropResult α
  | ok (position : Vec3 α) : PropResult α
deriving DecidableEq

/-- The external `satellite.js` facade used by the engine.  `Satrec` is the
opaque type of parsed orbital-element records.  The source treats each of
these functions as a black box (spec §6: the Position Provider is "the sole
source of orbital truth"). -/
structure SatelliteJs (α : Type) (Satrec : Type) where
  twoline2satrec : String → String → Satrec
  propagate : Satrec → ℤ → PropResult α
  gstime : ℤ → α
  eciToGeodetic : Vec3 α → α → Geodetic α

/-- The transcendental parts of the JavaScript `Math` object used by
`isSatelliteVisible`, kept abstract (floating-point `atan2`/`sqrt`/`PI`
values are not rational; all theorems hold for any interpretation). -/
structure JsMath where
  pi : ℚ
  sqrt : ℚ → ℚ
  atan2 : ℚ → ℚ → ℚ

/-- Type `GeoLocation` of `hooks/useGeolocation.ts` / the satellite store:
`{ latitude, longitude, accuracy? }`. -/
structure GeoLocation where
  latitude : ℚ
  longitude : ℚ
  accuracy : Option ℚ := none
deriving DecidableEq

/-- The fields of `SatelliteData` (`hooks/useSatellites.ts`) that the
pass-prediction engine reads (`tle`) or stores into passes; the rendering
fields (`orbitGeometry`, ...) are irrelevant to the engine. -/
structure SatelliteData where
  id : String
  name : String
  type : Option String := none
  tle : List String
deriving DecidableEq

/-- Result record of `isSatelliteVisible`:
`{ visible: boolean; elevation: number; azimuth: number }`. -/
structure VisibilityResult where
  visible : Bool
  elevation : ℚ
  azimuth : ℚ
deriving DecidableEq

/-- A finalized `SatellitePass` record (consts.ts).  `startTime`,
`endTime`, `peakTime` are epoch milliseconds; `duration` is in minutes. -/
structure SatellitePass where
  satellite : SatelliteData
  startTime : ℤ
  endTime : ℤ
  peakTime : ℤ
  peakElevation : ℚ
  duration : ℚ
  direction : String
  maxElevation : ℚ
  visible : Bool
deriving DecidableEq

/-- The `Partial<SatellitePass>` held in the scanner's `currentPass`
variable: exactly the fields assigned when a pass is opened. -/
structure OpenPass where
  satellite : SatelliteData
  startTime : ℤ
  peakElevation : ℚ
  peakTime : ℤ
  maxElevation : ℚ
  visible : Bool
deriving DecidableEq

/-- Truncation toward zero of a rational to an integer, as JavaScript's
ToInteger does when a computed millisecond count is stored in a `Date`. -/
def ratTrunc (q : ℚ) : ℤ := q.num.tdiv q.den

/-- Floor of a rational, computed on the numerator/denominator
representation (definitionally equal to `Int.floor`, see
`ratFloor_eq_floor`); used to model `Math.round`. -/
def ratFloor (q : ℚ) : ℤ := q.num / q.den

/-- JavaScript `Math.round`: round half toward positive infinity,
`round(x) = floor(x + 0.5)`. -/
def jsRound (q : ℚ) : ℤ := ratFloor (q + 1/2)

/-- JavaScript's remainder operator `a % b` on numbers: the remainder
takes the sign of the dividend, `a - b * trunc(a / b)`. -/
def jsMod (a b : ℚ) : ℚ := a - b * ((ratTrunc (a / b) : ℤ) : ℚ)

/-- JavaScript `a || b` on strings: `a` when truthy (non-empty), else `b`;
an out-of-range array access stands in for `undefined` via the default
value `""`. -/
def jsOrString (a b : String) : String := if a = "" then b else a

/-- First argument of `twoline2satrec` in the source:
`satellite.tle[1] || satellite.tle[0]`. -/
def tleLine1 (tle : List String) : String :=
  jsOrString (tle.getD 1 "") (tle.getD 0 "")

/-- Second argument of `twoline2satrec` in the source:
`satellite.tle[2] || satellite.tle[1]`. -/
def tleLine2 (tle : List String) : String :=
  jsOrString (tle.getD 2 "") (tle.getD 1 "")

/-- The parsed `satrec` used by the engine for a TLE triple. -/
def satrecOf {α S : Type} (sjs : SatelliteJs α S) (tle : List String) : S :=
  sjs.twoline2satrec (tleLine1 tle) (tleLine2 tle)

/-- Function `isSatelliteVisible(satellite, location, time)` of consts.ts.

The whole body sits in a `try` block; a thrown exception
(`PropResult.throws`) or a missing `positionAndVelocity.position`
(`PropResult.noPosition`) falls through to the final
`return { visible: false, elevation: 0, azimuth: 0 }`.  In the success
branch the source computes, with `satelliteJs.gstime` and
`satelliteJs.eciToGeodetic` as external black boxes:
lat/lon differences, `distance = sqrt(latDiff² + lonDiff²) * 6371`,
`elevation = atan2(satHeight, distance) * 180 / PI`,
`azimuth = atan2(lonDiff, latDiff) * 180 / PI`,
`normalizedAzimuth = (azimuth + 360) % 360`, `visible = elevation > 0`. -/
def isSatelliteVisible {S : Type} (sjs : SatelliteJs ℚ S) (m : JsMath)
    (satellite : SatelliteData) (location : GeoLocation) (time : ℤ) :
    VisibilityResult :=
  match sjs.propagate (satrecOf sjs satellite.tle) time with
  | .throws => { visible := false, elevation := 0, azimuth := 0 }
  | .noPosition => { visible := false, elevation := 0, azimuth := 0 }
  | .ok position =>
    let gmst := sjs.gstime time
    let observerGdLongitude := location.longitude * m.pi / 180
    let observerGdLatitude := location.latitude * m.pi / 180
    let positionGd := sjs.eciToGeodetic position gmst
    let latDiff := positionGd.latitude - observerGdLatitude
    let lonDiff := positionGd.longitude - observerGdLongitude
    let earthRadius : ℚ := 6371
    let satHeight := positionGd.height
    let distance := m.sqrt (latDiff * latDiff + lonDiff * lonDiff) * earthRadius
    let elevation := m.atan2 satHeight distance * 180 / m.pi
    let azimuth := m.atan2 lonDiff latDiff * 180 / m.pi
    let normalizedAzimuth := jsMod (azimuth + 360) 360
    let visible := decide (0 < elevation)
    { visible := visible, elevation := elevation, azimuth := normalizedAzimuth }

/-- The eight compass sector names of `getDirection`'s inner
`getCompassDirection`. -/
def compassDirections : List String := ["N", "NE", "E", "SE", "S", "SW", "W", "NW"]

/-- The inner `getCompassDirection(azimuth)` closure of `getDirection`:
`directions[Math.round(azimuth / 45) % 8]`.  A negative index (possible in
JavaScript only for azimuths below -22.5°) reads `undefined` from the
array; the string `"undefined"` models that. -/
def getCompassDirection (azimuth : ℚ) : String :=
  let index := Int.tmod (jsRound (azimuth / 45)) 8
  if index < 0 then "undefined" else compassDirections.getD index.toNat "undefined"

/-- Function `getDirection(startAzimuth, endAzimuth)` of consts.ts:
the template literal `` `${startDir} to ${endDir}` ``. -/
def getDirection (startAzimuth endAzimuth : ℚ) : String :=
  getCompassDirection startAzimuth ++ " to " ++ getCompassDirection endAzimuth

/-- The scanner's per-sample visibility decision (consts.ts line
`const isVisible = visibility.visible && visibility.elevation >= minElevation`). -/
def isVisibleSample {S : Type} (sjs : SatelliteJs ℚ S) (m : JsMath)
    (satellite : SatelliteData) (location : GeoLocation) (minElevation : ℚ)
    (time : ℤ) : Bool :=
  let visibility := isSatelliteVisible sjs m satellite location time
  visibility.visible && decide (minElevation ≤ visibility.elevation)

/-- The mutable state of `calculateSatellitePasses`' inner time loop for
one satellite: the shared `passes` output array restricted to this
satellite, `currentPass`, `wasVisible`, and the outer `peakElevation` /
`peakTime` variables. -/
structure ScanState where
  passes : List SatellitePass
  currentPass : Option OpenPass
  wasVisible : Bool
  peakElevation : ℚ
  peakTime : ℤ
deriving DecidableEq

/-- Initial loop state for one satellite (`currentPass = null`,
`wasVisible = false`, `peakElevation = 0`, `peakTime = startTime`). -/
def initScanState (startTime : ℤ) : ScanState :=
  { passes := [], currentPass := none, wasVisible := false,
    peakElevation := 0, peakTime := startTime }

/-- Finalization of an open pass at `endTime`, shared by the falling-edge
branch and the window-boundary branch of `calculateSatellitePasses`
(both assign `endTime`, `duration = (end - start) / (1000 * 60)` and
`direction = getDirection(startVis.azimuth, endVis.azimuth)` from fresh
`isSatelliteVisible` queries at the pass boundaries). -/
def finalizePass {S : Type} (sjs : SatelliteJs ℚ S) (m : JsMath)
    (satellite : SatelliteData) (location : GeoLocation) (cp : OpenPass)
    (endTime : ℤ) : SatellitePass :=
  let duration : ℚ := ((endTime - cp.startTime : ℤ) : ℚ) / (1000 * 60)
  let startVis := isSatelliteVisible sjs m satellite location cp.startTime
  let endVis := isSatelliteVisible sjs m satellite location endTime
  { satellite := cp.satellite, startTime := cp.startTime, endTime := endTime,
    peakTime := cp.peakTime, peakElevation := cp.peakElevation,
    duration := duration, direction := getDirection startVis.azimuth endVis.azimuth,
    maxElevation := cp.maxElevation, visible := cp.visible }

/-- One iteration of the scanner's time loop (consts.ts, the body of
`for (let time = ...; time <= endTime; ...)`), at sample time `time`:

* `isVisible && !wasVisible`: open a new pass;
* `isVisible && currentPass`: update the peak fields when
  `visibility.elevation > peakElevation`;
* `!isVisible && wasVisible && currentPass`: finalize the pass
  (`endTime = time`, `duration = (end - start) / (1000*60)`, direction from
  fresh visibility queries at start/end) and push it when
  `currentPass.duration && currentPass.duration > 1`;
* finally `wasVisible = isVisible` in every branch. -/
def passScanStep {S : Type} (sjs : SatelliteJs ℚ S) (m : JsMath)
    (satellite : SatelliteData) (location : GeoLocation) (minElevation : ℚ)
    (st : ScanState) (time : ℤ) : ScanState :=
  let visibility := isSatelliteVisible sjs m satellite location time
  let isVisible := visibility.visible && decide (minElevation ≤ visibility.elevation)
  if isVisible && !st.wasVisible then
    { passes := st.passes,
      currentPass :=
        some { satellite := satellite, startTime := time,
               peakElevation := visibility.elevation, peakTime := time,
               maxElevation := visibility.elevation, visible := true },
      wasVisible := isVisible,
      peakElevation := visibility.elevation, peakTime := time }
  else if isVisible then
    match st.currentPass with
    | some currentPass =>
      if decide (st.peakElevation < visibility.elevation) then
        { passes := st.passes,
          currentPass :=
            some { currentPass with
                   peakElevation := visibility.elevation, peakTime := time,
                   maxElevation := visibility.elevation },
          wasVisible := isVisible,
          peakElevation := visibility.elevation, peakTime := time }
      else
        { st with wasVisible := isVisible }
    | none => { st with wasVisible := isVisible }
  else if !isVisible && st.wasVisible then
    match st.currentPass with
    | some currentPass =>
      let duration : ℚ := ((time - currentPass.startTime : ℤ) : ℚ) / (1000 * 60)
      let passes :=
        if decide (duration ≠ 0) && decide (1 < duration) then
          st.passes ++ [finalizePass sjs m satellite location currentPass time]
        else st.passes
      { passes := passes, currentPass := none, wasVisible := isVisible,
        peakElevation := st.peakElevation, peakTime := st.peakTime }
    | none => { st with wasVisible := isVisible }
  else
    { st with wasVisible := isVisible }

/-- Number of loop iterations of `for (time = start; time <= endTime;
time += 1 minute)`. -/
def numSamples (startTime endTime : ℤ) : ℕ :=
  if endTime < startTime then 0 else ((endTime - startTime) / 60000).toNat + 1

/-- The sample times visited by the loop: `start, start + 60000, ...`. -/
def sampleTimes (startTime : ℤ) (n : ℕ) : List ℤ :=
  (List.range n).map (fun (k : ℕ) => startTime + 60000 * (k : ℤ))

/-- The window end `new Date(startTime.getTime() + durationHours * 60 *
60 * 1000)` in epoch milliseconds. -/
def windowEnd (startTime : ℤ) (durationHours : ℚ) : ℤ :=
  startTime + ratTrunc (durationHours * 60 * 60 * 1000)

/-- The body of `for (const satellite of satellites)` in
`calculateSatellitePasses`: run the time loop, then the trailing
`if (currentPass && wasVisible)` block that finalizes a pass still open at
the window end (`endTime = window boundary`, same `duration > 1` emission
rule, direction from fresh visibility queries).  Nothing in the loop body
can throw (every `satellite.js` call sits inside `isSatelliteVisible`'s own
`try`/`catch`), so the per-satellite `try { ... } catch` is invisible here. -/
def scanSatellite {S : Type} (sjs : SatelliteJs ℚ S) (m : JsMath)
    (satellite : SatelliteData) (location : GeoLocation) (startTime : ℤ)
    (durationHours : ℚ) (minElevation : ℚ) : List SatellitePass :=
  let endTime := windowEnd startTime durationHours
  let final := (sampleTimes startTime (numSamples startTime endTime)).foldl
    (passScanStep sjs m satellite location minElevation) (initScanState startTime)
  match final.currentPass, final.wasVisible with
  | some currentPass, true =>
    let duration : ℚ := ((endTime - currentPass.startTime : ℤ) : ℚ) / (1000 * 60)
    if decide (duration ≠ 0) && decide (1 < duration) then
      final.passes ++ [finalizePass sjs m satellite location currentPass endTime]
    else final.passes
  | _, _ => final.passes

/-- Function `calculateSatellitePasses(satellites, location, startTime,
durationHours, minElevation)` of consts.ts (source defaults:
`durationHours = 24`, `minElevation = 10`).  Each satellite's scan appends
to the shared `passes` array; the result ends with
`passes.sort((a, b) => a.startTime.getTime() - b.startTime.getTime())`,
a stable non-decreasing sort by start time. -/
def calculateSatellitePasses {S : Type} (sjs : SatelliteJs ℚ S) (m : JsMath)
    (satellites : List SatelliteData) (location : GeoLocation) (startTime : ℤ)
    (durationHours : ℚ) (minElevation : ℚ) : List SatellitePass :=
  let passes := satellites.foldl
    (fun acc satellite =>
      acc ++ scanSatellite sjs m satellite location startTime durationHours minElevation)
    []
  passes.mergeSort (fun a b => decide (a.startTime ≤ b.startTime))

/-! ### satellite-utils.ts: real-valued geometry

`latLonToCartesian` and `isSatelliteVisibleFromLocation` use
`Math.cos`/`Math.sin`/`Math.acos`; they are modelled over `ℝ` with the
genuine real functions (hence `noncomputable`). -/

/-- Constant `EARTH_RADIUS` of consts.ts: Earth radius in scene units. -/
def EARTH_RADIUS : ℚ := 10

/-- Constant `DEFAULT_APERTURE_ANGLE` of consts.ts (degrees); also the default of
`isSatelliteVisibleFromLocation`'s `apertureAngleDeg` parameter. -/
def DEFAULT_APERTURE_ANGLE : ℚ := 90

/-- Componentwise subtraction, `new THREE.Vector3().subVectors(a, b)`. -/
def v3sub (a b : Vec3 ℝ) : Vec3 ℝ := ⟨a.x - b.x, a.y - b.y, a.z - b.z⟩

/-- Scalar multiple of a vector. -/
def v3scale (s : ℝ) (v : Vec3 ℝ) : Vec3 ℝ := ⟨s * v.x, s * v.y, s * v.z⟩

/-- Dot product, `THREE.Vector3.dot`. -/
def v3dot (a b : Vec3 ℝ) : ℝ := a.x * b.x + a.y * b.y + a.z * b.z

/-- Euclidean length, `THREE.Vector3.length`. -/
noncomputable def v3length (v : Vec3 ℝ) : ℝ :=
  Real.sqrt (v.x * v.x + v.y * v.y + v.z * v.z)

/-- Normalization, `THREE.Vector3.normalize`: divide by the length.  (THREE produces NaN
components for the zero vector; Lean's `x / 0 = 0` convention stands in
for that junk value, and no theorem below evaluates it at length zero.) -/
noncomputable def v3normalize (v : Vec3 ℝ) : Vec3 ℝ :=
  ⟨v.x / v3length v, v.y / v3length v, v.z / v3length v⟩

/-- Function `latLonToCartesian(lat, lon, radius)` of satellite-utils.ts:
`x = r cos(lat) cos(lon)`, `y = r sin(lat)`, `z = r cos(lat) sin(lon)`,
angles converted from degrees to radians. -/
noncomputable def latLonToCartesian (lat lon radius : ℝ) : Vec3 ℝ :=
  let latRad := lat * (Real.pi / 180)
  let lonRad := lon * (Real.pi / 180)
  ⟨radius * Real.cos latRad * Real.cos lonRad,
   radius * Real.sin latRad,
   radius * Real.cos latRad * Real.sin lonRad⟩

/-- Function `isSatelliteVisibleFromLocation(satellitePosition, observerLat,
observerLon, apertureAngleDeg)` of satellite-utils.ts (source default
`apertureAngleDeg = 90`): the angle between the observer's zenith
direction and the normalized observer-to-satellite direction,
`acos(dot) * 180 / π`, compared against the aperture angle.  The boolean
comparison on floats is modelled as the real proposition. -/
noncomputable def isSatelliteVisibleFromLocation (satellitePosition : Vec3 ℝ)
    (observerLat observerLon apertureAngleDeg : ℝ) : Prop :=
  let observerCartesian := latLonToCartesian observerLat observerLon (EARTH_RADIUS : ℝ)
  let observerDirection := v3normalize observerCartesian
  let toSatellite := v3normalize (v3sub satellitePosition observerCartesian)
  let angle := Real.arccos (v3dot observerDirection toSatellite) * (180 / Real.pi)
  angle ≤ apertureAngleDeg

/-- Function `calculateSatellitePosition(tleLine, date)` of satellite-utils.ts:
on success, scale by `EARTH_RADIUS / 6371` and swap y/z (z-up to y-up);
when propagation throws or yields no position, return
`new THREE.Vector3(0, 0, 0)`. -/
def calculateSatellitePosition {S : Type} (sjs : SatelliteJs ℚ S)
    (tleLine : List String) (date : ℤ) : Vec3 ℚ :=
  match sjs.propagate (satrecOf sjs tleLine) date with
  | .throws => ⟨0, 0, 0⟩
  | .noPosition => ⟨0, 0, 0⟩
  | .ok position =>
    let scaleFactor := EARTH_RADIUS / 6371
    ⟨position.x * scaleFactor, position.z * scaleFactor, position.y * scaleFactor⟩

/-- Closure `isInCone` of the live Satellite component
(`components/Satellite.tsx`, lines 37-70): the component's
"absolute most precise cone-point intersection detection", used to drive
the red cone highlight (the component always renders every satellite).
With a present user position and cone direction it computes
`apexToPoint = position - userPosition`,
`projectionLength = dot(apexToPoint, coneDirection)`, returns `false` when
`projectionLength <= 0` (the first conjunct below), and otherwise tests
`|apexToPoint - coneDirection * projectionLength| <=
projectionLength * tan((apertureAngle / 2) * π / 180)`; with a missing
user position or cone direction it returns `false`. -/
noncomputable def isInCone (position : Vec3 ℝ)
    (userPosition coneDirection : Option (Vec3 ℝ)) (apertureAngle : ℝ) : Prop :=
  match userPosition, coneDirection with
  | some userPosition, some coneDirection =>
    let apexToPoint := v3sub position userPosition
    let projectionLength := v3dot apexToPoint coneDirection
    let projectedPoint := v3scale projectionLength coneDirection
    let perpendicular := v3sub apexToPoint projectedPoint
    let distanceToAxis := v3length perpendicular
    let halfAngleRadians := (apertureAngle / 2) * (Real.pi / 180)
    let radiusAtDistance := projectionLength * Real.tan halfAngleRadians
    0 < projectionLength ∧ distanceToAxis ≤ radiusAtDistance
  | _, _ => False

/-! ### Spec-side cone definitions (for the refinement claim C1)

These two definitions follow the spec's words, not the source; they exist
to be compared with `isSatelliteVisibleFromLocation` above. -/

/-- Record `ApertureCone` of spec §3: apex, axis and half-angle in degrees. -/
structure ApertureCone where
  apex : Vec3 ℝ
  axis : Vec3 ℝ
  halfAngleDeg : ℝ

/-- Follows the spec's words (§4.1 `pointInCone`): with
`v = point - cone.apex`, reject when `dot(v, axis) <= 0`, else contained
iff `|perp| <= |proj| * tan(halfAngle)` where `proj = axis * dot(v, axis)`
and `perp = v - proj`.  In the source this exact projection-based test is
implemented by the Satellite component's `isInCone` (for a unit axis, with
half-angle `apertureAngle / 2` — see `cone_containment_tests`), which only
drives the cone highlight, while the library's
`isSatelliteVisibleFromLocation` uses the angle test instead (spec §9:
"used nowhere consistently"). -/
noncomputable def pointInCone (point : Vec3 ℝ) (cone : ApertureCone) : Prop :=
  let v := v3sub point cone.apex
  let d := v3dot v cone.axis
  let proj := v3scale d cone.axis
  let perp := v3sub v proj
  0 < d ∧
    v3length perp ≤ v3length proj * Real.tan (cone.halfAngleDeg * (Real.pi / 180))

/-- Follows the spec's words (§4.1/§9, the `approximateHighlight`
strategy): the "angle between vectors ≤ half-aperture" test, with the
axis and the apex-to-point vector both normalized. -/
noncomputable def approximateHighlight (apex axis point : Vec3 ℝ)
    (halfAngleDeg : ℝ) : Prop :=
  Real.arccos (v3dot (v3normalize axis) (v3normalize (v3sub point apex))) *
      (180 / Real.pi) ≤ halfAngleDeg

/-! ### Concrete instantiations of the external black boxes

Used by the counterexamples and witnesses below.  `Satrec := String` and
`twoline2satrec` returning its first line lets a provider fail for one
satellite's elements and succeed for another's.  The `JsMath` instance
picks `pi = 180` and `atan2 y x = y`, so the computed elevation is exactly
the geodetic height supplied by `eciToGeodetic` — convenient exact values
for exercising the scanner. -/

/-- Concrete `JsMath`: `pi = 180`, identity `sqrt`, `atan2 y x = y`. -/
def wMath : JsMath := { pi := 180, sqrt := fun q => q, atan2 := fun y _ => y }

/-- Observer at latitude 0, longitude 0. -/
def wLoc : GeoLocation := { latitude := 0, longitude := 0 }

/-- A tracked object with TLE lines `["ISS", "L1", "L2"]` (so its parsed
satrec under the providers below is the string `"L1"`). -/
def wSat : SatelliteData := { id := "25544", name := "ISS", tle := ["ISS", "L1", "L2"] }

/-- A second tracked object, with satrec `"B1"`. -/
def wSatB : SatelliteData := { id := "33591", name := "NOAA 19", tle := ["NOAA", "B1", "B2"] }

/-- Provider whose satellites sit at constant geodetic height 10: every
sample has elevation exactly 10 under `wMath`. -/
def wSjsElev10 : SatelliteJs ℚ String :=
  { twoline2satrec := fun l1 _ => l1,
    propagate := fun _ _ => .ok ⟨0, 0, 0⟩,
    gstime := fun t => (t : ℚ),
    eciToGeodetic := fun _ _ => ⟨0, 0, 10⟩ }

/-- Provider giving elevation 45 before epoch millisecond 300000 and
elevation -5 from then on: one 5-minute pass at the start of a scan. -/
def wSjsPass : SatelliteJs ℚ String :=
  { twoline2satrec := fun l1 _ => l1,
    propagate := fun _ _ => .ok ⟨0, 0, 0⟩,
    gstime := fun t => (t : ℚ),
    eciToGeodetic := fun _ g => ⟨0, 0, if g < 300000 then 45 else -5⟩ }

/-- Provider giving constant elevation 45: visible at every sample. -/
def wSjsAll : SatelliteJs ℚ String :=
  { twoline2satrec := fun l1 _ => l1,
    propagate := fun _ _ => .ok ⟨0, 0, 0⟩,
    gstime := fun t => (t : ℚ),
    eciToGeodetic := fun _ _ => ⟨0, 0, 45⟩ }

/-- Provider that throws exactly at epoch millisecond 300000 and otherwise
reports constant elevation 45. -/
def wSjsErr1 : SatelliteJs ℚ String :=
  { twoline2satrec := fun l1 _ => l1,
    propagate := fun _ t => if t = 300000 then .throws else .ok ⟨0, 0, 0⟩,
    gstime := fun t => (t : ℚ),
    eciToGeodetic := fun _ _ => ⟨0, 0, 45⟩ }

/-- Provider that throws for the elements of `wSat` (satrec `"L1"`) at
every time, and reports constant elevation 45 for every other satrec. -/
def wSjsFail : SatelliteJs ℚ String :=
  { twoline2satrec := fun l1 _ => l1,
    propagate := fun r _ => if r = "L1" then .throws else .ok ⟨0, 0, 0⟩,
    gstime := fun t => (t : ℚ),
    eciToGeodetic := fun _ _ => ⟨0, 0, 45⟩ }

/-- Provider that always throws. -/
def wSjsThrow : SatelliteJs ℚ String :=
  { twoline2satrec := fun l1 _ => l1,
    propagate := fun _ _ => .throws,
    gstime := fun t => (t : ℚ),
    eciToGeodetic := fun _ _ => ⟨0, 0, 0⟩ }

/-- The single pass produced by scanning `wSat` under `wSjsPass` over a
10-minute window starting at epoch 0. -/
def wPass : SatellitePass :=
  { satellite := wSat, startTime := 0, endTime := 300000, peakTime := 0,
    peakElevation := 45, duration := 5, direction := "N to N",
    maxElevation := 45, visible := true }

/-! ### Invariant predicates for the pass scanner -/

/-- Invariants of every finalized pass emitted for `satellite`:
start/peak/end ordering, peak elevation at least the threshold, duration
strictly above one minute and equal to `(end - start)` in minutes, and the
compass direction computed from the visibility azimuths at the pass
boundaries. -/
def ClosedPassOk {S : Type} (sjs : SatelliteJs ℚ S) (m : JsMath)
    (satellite : SatelliteData) (location : GeoLocation) (minElevation : ℚ)
    (p : SatellitePass) : Prop :=
  p.startTime ≤ p.peakTime ∧ p.peakTime ≤ p.endTime ∧
  minElevation ≤ p.peakElevation ∧ 1 < p.duration ∧
  p.duration = ((p.endTime - p.startTime : ℤ) : ℚ) / (1000 * 60) ∧
  p.startTime < p.endTime ∧
  p.direction =
    getDirection (isSatelliteVisible sjs m satellite location p.startTime).azimuth
      (isSatelliteVisible sjs m satellite location p.endTime).azimuth

/-- Invariants of an open pass while the scan cursor is at time `bound`. -/
def OpenPassOk (minElevation : ℚ) (bound : ℤ) (cp : OpenPass) : Prop :=
  cp.startTime ≤ cp.peakTime ∧ cp.peakTime ≤ bound ∧ minElevation ≤ cp.peakElevation

/-- Loop invariant of the scanner state after processing samples up to
time `bound`. -/
def ScanInv {S : Type} (sjs : SatelliteJs ℚ S) (m : JsMath)
    (satellite : SatelliteData) (location : GeoLocation) (minElevation : ℚ)
    (bound : ℤ) (st : ScanState) : Prop :=
  (∀ p ∈ st.passes, ClosedPassOk sjs m satellite location minElevation p) ∧
  (∀ cp, st.currentPass = some cp → OpenPassOk minElevation bound cp)

/-! ## Theorems -/

/-- Helper `ratFloor` agrees with the mathematical floor. -/
theorem ratFloor_eq_floor (q : ℚ) : ratFloor q = ⌊q⌋ := by
  rw [ratFloor, Rat.floor_def]

/-- A duration strictly above one minute forces a strictly positive
millisecond interval. -/
theorem start_lt_end_of_duration {s e : ℤ}
    (h : (1 : ℚ) < ((e - s : ℤ) : ℚ) / (1000 * 60)) : s < e := by
  rw [lt_div_iff₀ (by norm_num : (0:ℚ) < 1000 * 60)] at h
  have h2 : (60000 : ℤ) < e - s := by exact_mod_cast (by linarith : (60000 : ℚ) < ((e - s : ℤ) : ℚ))
  omega

/-- Claim C2 (amended): a sample is marked visible by the pass scanner iff
its computed elevation is strictly positive (the `visible` flag of
`isSatelliteVisible`, whose fixed threshold is 0) and at least — not
strictly above — the caller-supplied `minElevation` (whose source default
is 10). -/
theorem isVisibleSample_iff {S : Type} (sjs : SatelliteJs ℚ S) (m : JsMath)
    (satellite : SatelliteData) (location : GeoLocation) (minElevation : ℚ)
    (time : ℤ) :
    isVisibleSample sjs m satellite location minElevation time = true ↔
      (0 < (isSatelliteVisible sjs m satellite location time).elevation ∧
        minElevation ≤ (isSatelliteVisible sjs m satellite location time).elevation) := by
  unfold isVisibleSample isSatelliteVisible
  cases h : sjs.propagate (satrecOf sjs satellite.tle) time <;> simp

/-- Claim C2, counterexample: with the scanner threshold `minElevation =
10` (the source default) and a sample of elevation exactly 10, the sample
is marked visible although its elevation is not strictly greater than the
threshold. -/
theorem isVisibleSample_at_threshold_counterexample :
    isVisibleSample wSjsElev10 wMath wSat wLoc 10 0 = true ∧
      ¬ (10 : ℚ) < (isSatelliteVisible wSjsElev10 wMath wSat wLoc 0).elevation := by
  decide

/-- Claim C7: whenever propagation throws or yields no position for the
requested time, `isSatelliteVisible` returns
`{ visible: false, elevation: 0, azimuth: 0 }` instead of propagating the
failure. -/
theorem isSatelliteVisible_failure {S : Type} (sjs : SatelliteJs ℚ S) (m : JsMath)
    (satellite : SatelliteData) (location : GeoLocation) (time : ℤ)
    (h : sjs.propagate (satrecOf sjs satellite.tle) time = .throws ∨
         sjs.propagate (satrecOf sjs satellite.tle) time = .noPosition) :
    isSatelliteVisible sjs m satellite location time =
      { visible := false, elevation := 0, azimuth := 0 } := by
  unfold isSatelliteVisible
  rcases h with h | h <;> rw [h]

/-- Witness for C7 at a provider that always throws. -/
theorem isSatelliteVisible_failure_witness :
    (wSjsThrow.propagate (satrecOf wSjsThrow wSat.tle) 0 = .throws ∨
      wSjsThrow.propagate (satrecOf wSjsThrow wSat.tle) 0 = .noPosition) ∧
      isSatelliteVisible wSjsThrow wMath wSat wLoc 0 =
        { visible := false, elevation := 0, azimuth := 0 } :=
  ⟨Or.inl rfl, isSatelliteVisible_failure wSjsThrow wMath wSat wLoc 0 (Or.inl rfl)⟩

/-- Claim C10: when propagation throws or yields no position,
`calculateSatellitePosition` returns the zero vector — the satellite is
silently placed at the Earth's center rather than reported as a failure. -/
theorem calculateSatellitePosition_failure {S : Type} (sjs : SatelliteJs ℚ S)
    (tleLine : List String) (date : ℤ)
    (h : sjs.propagate (satrecOf sjs tleLine) date = .throws ∨
         sjs.propagate (satrecOf sjs tleLine) date = .noPosition) :
    calculateSatellitePosition sjs tleLine date = ⟨0, 0, 0⟩ := by
  unfold calculateSatellitePosition
  rcases h with h | h <;> rw [h]

/-- Witness for C10 at a provider that always throws. -/
theorem calculateSatellitePosition_failure_witness :
    (wSjsThrow.propagate (satrecOf wSjsThrow wSat.tle) 0 = .throws ∨
      wSjsThrow.propagate (satrecOf wSjsThrow wSat.tle) 0 = .noPosition) ∧
      calculateSatellitePosition wSjsThrow wSat.tle 0 = ⟨0, 0, 0⟩ :=
  ⟨Or.inl rfl, calculateSatellitePosition_failure wSjsThrow wSat.tle 0 (Or.inl rfl)⟩

/-- The observer at latitude 0, longitude 0 sits at `(10, 0, 0)` in scene
coordinates. -/
theorem latLonToCartesian_zero :
    latLonToCartesian 0 0 (EARTH_RADIUS : ℝ) = ⟨10, 0, 0⟩ := by
  unfold latLonToCartesian EARTH_RADIUS
  norm_num

/-- Normalizing the observer position `(10, 0, 0)` gives `(1, 0, 0)`. -/
theorem v3normalize_obs : v3normalize ⟨10, 0, 0⟩ = ⟨1, 0, 0⟩ := by
  have hlen : v3length ⟨10, 0, 0⟩ = 10 := by
    unfold v3length
    rw [show ((10:ℝ) * 10 + 0 * 0 + 0 * 0) = 10 ^ 2 by norm_num]
    exact Real.sqrt_sq (by norm_num)
  unfold v3normalize
  rw [hlen]
  norm_num

/-- Normalizing `(0, 20, 0)` gives `(0, 1, 0)`. -/
theorem v3normalize_toSat : v3normalize ⟨0, 20, 0⟩ = ⟨0, 1, 0⟩ := by
  have hlen : v3length ⟨0, 20, 0⟩ = 20 := by
    unfold v3length
    rw [show ((0:ℝ) * 0 + 20 * 20 + 0 * 0) = 20 ^ 2 by norm_num]
    exact Real.sqrt_sq (by norm_num)
  unfold v3normalize
  rw [hlen]
  norm_num

/-- Claim C1, counterexample: for the observer at `(0°, 0°)`, the
satellite at scene position `(10, 20, 0)` (directly orthogonal to the
observer's zenith) and the source's default aperture of 90°, the library's
containment decision `isSatelliteVisibleFromLocation` is *visible* (the
angle test accepts `90° ≤ 90°`), while the spec's exact projection-based
`pointInCone` for the cone with apex at the observer and axis along the
observer's zenith *rejects* the point (`dot(v, axis) = 0 ≤ 0`).  Hence
this containment decision is computed by the angle-between-vectors test,
not the exact projection-based test, refuting the claim that the
approximate test is never used for a containment decision. -/
theorem cone_test_disagreement :
    isSatelliteVisibleFromLocation ⟨10, 20, 0⟩ 0 0 90 ∧
      ¬ pointInCone ⟨10, 20, 0⟩
          { apex := latLonToCartesian 0 0 (EARTH_RADIUS : ℝ),
            axis := v3normalize (latLonToCartesian 0 0 (EARTH_RADIUS : ℝ)),
            halfAngleDeg := 90 } := by
  constructor
  · simp only [isSatelliteVisibleFromLocation]
    rw [latLonToCartesian_zero]
    rw [show v3sub ⟨10, 20, 0⟩ ⟨10, 0, 0⟩ = (⟨0, 20, 0⟩ : Vec3 ℝ) by
      unfold v3sub; norm_num]
    rw [v3normalize_obs, v3normalize_toSat]
    rw [show v3dot ⟨1, 0, 0⟩ ⟨0, 1, 0⟩ = (0:ℝ) by unfold v3dot; norm_num]
    rw [Real.arccos_zero]
    rw [show Real.pi / 2 * (180 / Real.pi) = 90 by
      field_simp
      ring]
  · intro hc
    simp only [pointInCone] at hc
    rw [latLonToCartesian_zero, v3normalize_obs] at hc
    rw [show v3sub ⟨10, 20, 0⟩ ⟨10, 0, 0⟩ = (⟨0, 20, 0⟩ : Vec3 ℝ) by
      unfold v3sub; norm_num] at hc
    rw [show v3dot ⟨0, 20, 0⟩ ⟨1, 0, 0⟩ = (0:ℝ) by unfold v3dot; norm_num] at hc
    exact lt_irrefl 0 hc.1

/-- Scaling a vector scales its length by the absolute scalar. -/
theorem v3length_smul (s : ℝ) (v : Vec3 ℝ) :
    v3length (v3scale s v) = |s| * v3length v := by
  unfold v3length v3scale
  rw [show s * v.x * (s * v.x) + s * v.y * (s * v.y) + s * v.z * (s * v.z) =
      s ^ 2 * (v.x * v.x + v.y * v.y + v.z * v.z) by ring]
  rw [Real.sqrt_mul (sq_nonneg s), Real.sqrt_sq_eq_abs]

/-- Claim C1 (amended): the source computes cone containment in two
different ways.  The Satellite component's `isInCone` implements exactly
the spec's projection-based `pointInCone` (for a unit cone direction, with
half-angle `apertureAngle / 2`), and it only drives the cone highlight;
the library's `isSatelliteVisibleFromLocation` instead computes the spec's
*approximate* angle-between-vectors strategy `approximateHighlight` on the
cone with apex at the observer's surface position and axis along the
observer's zenith.  The two tests disagree (see
`cone_test_disagreement`), so the exact projection-based test is not the
single authoritative containment decision. -/
theorem cone_containment_tests :
    (∀ (position userPosition coneDirection : Vec3 ℝ) (apertureAngle : ℝ),
      v3length coneDirection = 1 →
      (isInCone position (some userPosition) (some coneDirection) apertureAngle ↔
        pointInCone position
          { apex := userPosition, axis := coneDirection,
            halfAngleDeg := apertureAngle / 2 })) ∧
    (∀ (satellitePosition : Vec3 ℝ) (observerLat observerLon apertureAngleDeg : ℝ),
      isSatelliteVisibleFromLocation satellitePosition observerLat observerLon
          apertureAngleDeg ↔
        approximateHighlight
          (latLonToCartesian observerLat observerLon (EARTH_RADIUS : ℝ))
          (latLonToCartesian observerLat observerLon (EARTH_RADIUS : ℝ))
          satellitePosition apertureAngleDeg) := by
  constructor
  · intro position userPosition coneDirection apertureAngle hunit
    simp only [isInCone, pointInCone]
    constructor
    · rintro ⟨hd, hle⟩
      refine ⟨hd, ?_⟩
      rw [v3length_smul, hunit, mul_one, abs_of_pos hd]
      exact hle
    · rintro ⟨hd, hle⟩
      refine ⟨hd, ?_⟩
      rw [v3length_smul, hunit, mul_one, abs_of_pos hd] at hle
      exact hle
  · intro satellitePosition observerLat observerLon apertureAngleDeg
    exact Iff.rfl

/-- Witness for C1 (amended) at a concrete unit cone direction. -/
theorem cone_containment_tests_witness :
    v3length ⟨1, 0, 0⟩ = 1 ∧
      (isInCone ⟨10, 20, 0⟩ (some ⟨10, 0, 0⟩) (some ⟨1, 0, 0⟩) 90 ↔
        pointInCone ⟨10, 20, 0⟩
          { apex := ⟨10, 0, 0⟩, axis := ⟨1, 0, 0⟩, halfAngleDeg := (90 : ℝ) / 2 }) := by
  have hlen : v3length (⟨1, 0, 0⟩ : Vec3 ℝ) = 1 := by
    unfold v3length
    rw [show (1 : ℝ) * 1 + 0 * 0 + 0 * 0 = 1 by norm_num]
    exact Real.sqrt_one
  exact ⟨hlen, cone_containment_tests.1 ⟨10, 20, 0⟩ ⟨10, 0, 0⟩ ⟨1, 0, 0⟩ 90 hlen⟩

/-- An open-pass invariant is monotone in the cursor bound. -/
theorem OpenPassOk.mono {minElevation : ℚ} {b b2 : ℤ} {cp : OpenPass}
    (h : OpenPassOk minElevation b cp) (hb : b ≤ b2) : OpenPassOk minElevation b2 cp :=
  ⟨h.1, le_trans h.2.1 hb, h.2.2⟩

/-- Step characterization: at a visible sample following an invisible one,
a new pass opens at `t`. -/
theorem passScanStep_open {S : Type} {sjs : SatelliteJs ℚ S} {m : JsMath}
    {satellite : SatelliteData} {location : GeoLocation} {minElevation : ℚ}
    {st : ScanState} {t : ℤ}
    (hv : isVisibleSample sjs m satellite location minElevation t = true)
    (hw : st.wasVisible = false) :
    passScanStep sjs m satellite location minElevation st t =
      { passes := st.passes,
        currentPass :=
          some { satellite := satellite, startTime := t,
                 peakElevation := (isSatelliteVisible sjs m satellite location t).elevation,
                 peakTime := t,
                 maxElevation := (isSatelliteVisible sjs m satellite location t).elevation,
                 visible := true },
        wasVisible := true,
        peakElevation := (isSatelliteVisible sjs m satellite location t).elevation,
        peakTime := t } := by
  unfold isVisibleSample at hv
  unfold passScanStep
  simp [hv, hw]

/-- Step characterization: at a visible sample inside a pass, the peak
fields are updated when the elevation exceeds the running peak. -/
theorem passScanStep_inside_update {S : Type} {sjs : SatelliteJs ℚ S} {m : JsMath}
    {satellite : SatelliteData} {location : GeoLocation} {minElevation : ℚ}
    {st : ScanState} {t : ℤ} {cp : OpenPass}
    (hv : isVisibleSample sjs m satellite location minElevation t = true)
    (hw : st.wasVisible = true) (hcp : st.currentPass = some cp)
    (hpk : st.peakElevation < (isSatelliteVisible sjs m satellite location t).elevation) :
    passScanStep sjs m satellite location minElevation st t =
      { passes := st.passes,
        currentPass :=
          some { cp with
                 peakElevation := (isSatelliteVisible sjs m satellite location t).elevation,
                 peakTime := t,
                 maxElevation := (isSatelliteVisible sjs m satellite location t).elevation },
        wasVisible := true,
        peakElevation := (isSatelliteVisible sjs m satellite location t).elevation,
        peakTime := t } := by
  unfold isVisibleSample at hv
  unfold passScanStep
  simp [hv, hw, hcp, hpk]

/-- Step characterization: at a visible sample inside a pass, nothing but
`wasVisible` changes when the elevation does not exceed the peak. -/
theorem passScanStep_inside_keep {S : Type} {sjs : SatelliteJs ℚ S} {m : JsMath}
    {satellite : SatelliteData} {location : GeoLocation} {minElevation : ℚ}
    {st : ScanState} {t : ℤ} {cp : OpenPass}
    (hv : isVisibleSample sjs m satellite location minElevation t = true)
    (hw : st.wasVisible = true) (hcp : st.currentPass = some cp)
    (hpk : ¬ st.peakElevation < (isSatelliteVisible sjs m satellite location t).elevation) :
    passScanStep sjs m satellite location minElevation st t =
      { st with wasVisible := true } := by
  unfold isVisibleSample at hv
  unfold passScanStep
  simp [hv, hw, hcp, hpk]

/-- Step characterization: a visible sample with `wasVisible` set but no
open pass only updates `wasVisible` (unreachable during an actual scan). -/
theorem passScanStep_inside_none {S : Type} {sjs : SatelliteJs ℚ S} {m : JsMath}
    {satellite : SatelliteData} {location : GeoLocation} {minElevation : ℚ}
    {st : ScanState} {t : ℤ}
    (hv : isVisibleSample sjs m satellite location minElevation t = true)
    (hw : st.wasVisible = true) (hcp : st.currentPass = none) :
    passScanStep sjs m satellite location minElevation st t =
      { st with wasVisible := true } := by
  unfold isVisibleSample at hv
  unfold passScanStep
  simp [hv, hw, hcp]

/-- Step characterization: an invisible sample at a falling edge closes
the open pass, emitting it only when its duration exceeds one minute. -/
theorem passScanStep_close {S : Type} {sjs : SatelliteJs ℚ S} {m : JsMath}
    {satellite : SatelliteData} {location : GeoLocation} {minElevation : ℚ}
    {st : ScanState} {t : ℤ} {cp : OpenPass}
    (hv : isVisibleSample sjs m satellite location minElevation t = false)
    (hw : st.wasVisible = true) (hcp : st.currentPass = some cp) :
    passScanStep sjs m satellite location minElevation st t =
      { passes :=
          if decide (((t - cp.startTime : ℤ) : ℚ) / (1000 * 60) ≠ 0) &&
              decide (1 < ((t - cp.startTime : ℤ) : ℚ) / (1000 * 60)) then
            st.passes ++ [finalizePass sjs m satellite location cp t]
          else st.passes,
        currentPass := none, wasVisible := false,
        peakElevation := st.peakElevation, peakTime := st.peakTime } := by
  unfold isVisibleSample at hv
  unfold passScanStep
  simp [hv, hw, hcp]

/-- Step characterization: an invisible sample at a falling edge with no
open pass only clears `wasVisible` (unreachable during an actual scan). -/
theorem passScanStep_close_none {S : Type} {sjs : SatelliteJs ℚ S} {m : JsMath}
    {satellite : SatelliteData} {location : GeoLocation} {minElevation : ℚ}
    {st : ScanState} {t : ℤ}
    (hv : isVisibleSample sjs m satellite location minElevation t = false)
    (hw : st.wasVisible = true) (hcp : st.currentPass = none) :
    passScanStep sjs m satellite location minElevation st t =
      { st with wasVisible := false } := by
  unfold isVisibleSample at hv
  unfold passScanStep
  simp [hv, hw, hcp]

/-- Step characterization: an invisible sample outside any pass leaves the
state unchanged apart from `wasVisible`. -/
theorem passScanStep_outside {S : Type} {sjs : SatelliteJs ℚ S} {m : JsMath}
    {satellite : SatelliteData} {location : GeoLocation} {minElevation : ℚ}
    {st : ScanState} {t : ℤ}
    (hv : isVisibleSample sjs m satellite location minElevation t = false)
    (hw : st.wasVisible = false) :
    passScanStep sjs m satellite location minElevation st t =
      { st with wasVisible := false } := by
  unfold isVisibleSample at hv
  unfold passScanStep
  simp [hv, hw]

/-- A visible sample has elevation at least the scanner threshold. -/
theorem minElevation_le_of_visibleSample {S : Type} {sjs : SatelliteJs ℚ S}
    {m : JsMath} {satellite : SatelliteData} {location : GeoLocation}
    {minElevation : ℚ} {t : ℤ}
    (hv : isVisibleSample sjs m satellite location minElevation t = true) :
    minElevation ≤ (isSatelliteVisible sjs m satellite location t).elevation := by
  unfold isVisibleSample at hv
  exact of_decide_eq_true ((Bool.and_eq_true _ _).mp hv).2

/-- One scanner step at sample time `t` preserves the loop invariant,
advancing the cursor bound from `b` to `t`. -/
theorem passScanStep_inv {S : Type} {sjs : SatelliteJs ℚ S} {m : JsMath}
    {satellite : SatelliteData} {location : GeoLocation} {minElevation : ℚ}
    {b t : ℤ} {st : ScanState}
    (hinv : ScanInv sjs m satellite location minElevation b st) (hbt : b ≤ t) :
    ScanInv sjs m satellite location minElevation t
      (passScanStep sjs m satellite location minElevation st t) := by
  obtain ⟨hclosed, hopen⟩ := hinv
  cases hv : isVisibleSample sjs m satellite location minElevation t with
  | true =>
    cases hw : st.wasVisible with
    | false =>
      rw [passScanStep_open hv hw]
      refine ⟨fun p hp => hclosed p hp, fun cp hcp => ?_⟩
      cases hcp
      exact ⟨le_refl _, le_refl _, minElevation_le_of_visibleSample hv⟩
    | true =>
      cases hcp : st.currentPass with
      | none =>
        rw [passScanStep_inside_none hv hw hcp]
        refine ⟨fun p hp => hclosed p hp, fun cp hcp2 => ?_⟩
        exact absurd (hcp ▸ hcp2) (by simp)
      | some cp0 =>
        by_cases hpk : st.peakElevation < (isSatelliteVisible sjs m satellite location t).elevation
        · rw [passScanStep_inside_update hv hw hcp hpk]
          refine ⟨fun p hp => hclosed p hp, fun cp hcp2 => ?_⟩
          cases hcp2
          have hcp0 := hopen cp0 hcp
          exact ⟨le_trans hcp0.1 (le_trans hcp0.2.1 hbt), le_refl _,
            minElevation_le_of_visibleSample hv⟩
        · rw [passScanStep_inside_keep hv hw hcp hpk]
          exact ⟨fun p hp => hclosed p hp, fun cp hcp2 => (hopen cp hcp2).mono hbt⟩
  | false =>
    cases hw : st.wasVisible with
    | false =>
      rw [passScanStep_outside hv hw]
      exact ⟨fun p hp => hclosed p hp, fun cp hcp2 => (hopen cp hcp2).mono hbt⟩
    | true =>
      cases hcp : st.currentPass with
      | none =>
        rw [passScanStep_close_none hv hw hcp]
        exact ⟨fun p hp => hclosed p hp, fun cp hcp2 => (hopen cp hcp2).mono hbt⟩
      | some cp0 =>
        rw [passScanStep_close hv hw hcp]
        refine ⟨?_, fun cp hcp2 => by cases hcp2⟩
        intro p hp
        by_cases hg : (decide (((t - cp0.startTime : ℤ) : ℚ) / (1000 * 60) ≠ 0) &&
            decide (1 < ((t - cp0.startTime : ℤ) : ℚ) / (1000 * 60))) = true
        · rw [if_pos hg] at hp
          rcases List.mem_append.mp hp with hp2 | hp2
          · exact hclosed p hp2
          · have hdur : (1 : ℚ) < ((t - cp0.startTime : ℤ) : ℚ) / (1000 * 60) :=
              of_decide_eq_true ((Bool.and_eq_true _ _).mp hg).2
            have hcp0 := hopen cp0 hcp
            cases List.mem_singleton.mp hp2
            exact ⟨hcp0.1, le_trans hcp0.2.1 hbt, hcp0.2.2, hdur, rfl,
              start_lt_end_of_duration hdur, rfl⟩
        · rw [if_neg hg] at hp
          exact hclosed p hp

/-- The sample grid is sorted. -/
theorem sampleTimes_sorted (s : ℤ) (n : ℕ) : (sampleTimes s n).Sorted (· ≤ ·) := by
  unfold sampleTimes
  refine List.Pairwise.map _ ?_ (List.pairwise_lt_range n)
  intro a b hab
  omega

/-- Every sample time is at least the window start. -/
theorem sampleTimes_mem_ge {s : ℤ} {n : ℕ} : ∀ t ∈ sampleTimes s n, s ≤ t := by
  intro t ht
  simp only [sampleTimes, List.mem_map, List.mem_range] at ht
  obtain ⟨k, hk, rfl⟩ := ht
  omega

/-- Every sample time of the scanner's grid is at most the window end
(the loop condition is `time <= endTime`). -/
theorem sampleTimes_mem_le {s e : ℤ} : ∀ t ∈ sampleTimes s (numSamples s e), t ≤ e := by
  intro t ht
  simp only [sampleTimes, List.mem_map, List.mem_range] at ht
  obtain ⟨k, hk, rfl⟩ := ht
  unfold numSamples at hk
  by_cases he : e < s
  · rw [if_pos he] at hk
    omega
  · rw [if_neg he] at hk
    omega

/-- Folding the scanner step over a sorted list of sample times bounded
below by `b` preserves the invariant; the resulting cursor bound `c` is
either `b` itself or one of the processed samples. -/
theorem foldl_scanInv {S : Type} {sjs : SatelliteJs ℚ S} {m : JsMath}
    {satellite : SatelliteData} {location : GeoLocation} {minElevation : ℚ}
    (l : List ℤ) (st : ScanState) (b : ℤ)
    (hinv : ScanInv sjs m satellite location minElevation b st)
    (hsort : l.Sorted (· ≤ ·)) (hge : ∀ t ∈ l, b ≤ t) :
    ∃ c, b ≤ c ∧ (c = b ∨ c ∈ l) ∧ (∀ t ∈ l, t ≤ c) ∧
      ScanInv sjs m satellite location minElevation c
        (l.foldl (passScanStep sjs m satellite location minElevation) st) := by
  induction l generalizing st b with
  | nil => exact ⟨b, le_refl b, Or.inl rfl, by simp, hinv⟩
  | cons t rest ih =>
    have hbt : b ≤ t := hge t (List.mem_cons_self t rest)
    have hrest := List.sorted_cons.mp hsort
    obtain ⟨c, hc1, hc2, hc3, hc4⟩ :=
      ih (passScanStep sjs m satellite location minElevation st t) t
        (passScanStep_inv hinv hbt) hrest.2 hrest.1
    refine ⟨c, le_trans hbt hc1, ?_, ?_, hc4⟩
    · rcases hc2 with rfl | h
      · exact Or.inr (List.mem_cons_self c rest)
      · exact Or.inr (List.mem_cons_of_mem t h)
    · intro u hu
      rcases List.mem_cons.mp hu with rfl | hu2
      · exact hc1
      · exact hc3 u hu2

/-- Every pass returned by a single-satellite scan satisfies the
closed-pass invariants. -/
theorem mem_scanSatellite_closedOk {S : Type} {sjs : SatelliteJs ℚ S} {m : JsMath}
    {satellite : SatelliteData} {location : GeoLocation} {startTime : ℤ}
    {durationHours minElevation : ℚ} :
    ∀ p ∈ scanSatellite sjs m satellite location startTime durationHours minElevation,
      ClosedPassOk sjs m satellite location minElevation p := by
  intro p hp
  have hinit : ScanInv sjs m satellite location minElevation startTime
      (initScanState startTime) := by
    refine ⟨?_, ?_⟩
    · intro q hq
      simp [initScanState] at hq
    · intro cp hcp
      simp [initScanState] at hcp
  obtain ⟨c, hc1, hc2, hc3, hinvF⟩ :=
    foldl_scanInv
      (sampleTimes startTime (numSamples startTime (windowEnd startTime durationHours)))
      (initScanState startTime) startTime hinit (sampleTimes_sorted _ _)
      (sampleTimes_mem_ge)
  simp only [scanSatellite] at hp
  cases hfc : ((sampleTimes startTime
      (numSamples startTime (windowEnd startTime durationHours))).foldl
      (passScanStep sjs m satellite location minElevation)
      (initScanState startTime)).currentPass with
  | none =>
    rw [hfc] at hp
    simp only at hp
    exact hinvF.1 p hp
  | some cp =>
    rw [hfc] at hp
    cases hfw : ((sampleTimes startTime
        (numSamples startTime (windowEnd startTime durationHours))).foldl
        (passScanStep sjs m satellite location minElevation)
        (initScanState startTime)).wasVisible with
    | false =>
      rw [hfw] at hp
      simp only at hp
      exact hinvF.1 p hp
    | true =>
      rw [hfw] at hp
      simp only at hp
      have hne : ¬ windowEnd startTime durationHours < startTime := by
        intro hlt
        have hnil : sampleTimes startTime
            (numSamples startTime (windowEnd startTime durationHours)) = [] := by
          unfold numSamples
          rw [if_pos hlt]
          rfl
        rw [hnil] at hfc
        simp [initScanState] at hfc
      have hcE : c ≤ windowEnd startTime durationHours := by
        rcases hc2 with rfl | hcmem
        · omega
        · exact sampleTimes_mem_le c hcmem
      by_cases hg : (decide (((windowEnd startTime durationHours - cp.startTime : ℤ) : ℚ) /
            (1000 * 60) ≠ 0) &&
          decide (1 < ((windowEnd startTime durationHours - cp.startTime : ℤ) : ℚ) /
            (1000 * 60))) = true
      · rw [if_pos hg] at hp
        rcases List.mem_append.mp hp with hp2 | hp2
        · exact hinvF.1 p hp2
        · have hdur : (1 : ℚ) <
              ((windowEnd startTime durationHours - cp.startTime : ℤ) : ℚ) / (1000 * 60) :=
            of_decide_eq_true ((Bool.and_eq_true _ _).mp hg).2
          have hcp0 := hinvF.2 cp hfc
          cases List.mem_singleton.mp hp2
          exact ⟨hcp0.1, le_trans hcp0.2.1 hcE, hcp0.2.2, hdur, rfl,
            start_lt_end_of_duration hdur, rfl⟩
      · rw [if_neg hg] at hp
        exact hinvF.1 p hp

/-- Appending per-satellite scans into a shared accumulator is the
flattening of the per-satellite results. -/
theorem foldl_append_flatten {α β : Type} (f : α → List β) :
    ∀ (l : List α) (acc : List β),
      l.foldl (fun a s => a ++ f s) acc = acc ++ (l.map f).flatten := by
  intro l
  induction l with
  | nil => intro acc; simp
  | cons x xs ih => intro acc; simp [ih]

/-- Every pass in the combined, sorted output comes from the scan of one
of the input satellites. -/
theorem mem_calculateSatellitePasses {S : Type} {sjs : SatelliteJs ℚ S} {m : JsMath}
    {satellites : List SatelliteData} {location : GeoLocation} {startTime : ℤ}
    {durationHours minElevation : ℚ} {p : SatellitePass}
    (hp : p ∈ calculateSatellitePasses sjs m satellites location startTime
      durationHours minElevation) :
    ∃ satellite ∈ satellites,
      p ∈ scanSatellite sjs m satellite location startTime durationHours minElevation := by
  unfold calculateSatellitePasses at hp
  have hp2 := (List.mergeSort_perm _ _).mem_iff.mp hp
  rw [foldl_append_flatten] at hp2
  simp only [List.nil_append, List.mem_flatten, List.mem_map] at hp2
  obtain ⟨lp, ⟨sat, hsat, rfl⟩, hpl⟩ := hp2
  exact ⟨sat, hsat, hpl⟩

/-- Claim C3: for every pass emitted by `calculateSatellitePasses` with
threshold `minElevation`, `startTime ≤ peakTime ≤ endTime` (the claim's
parenthetical reading: `peakTime` may equal `startTime` when the first
sample is already the maximum) and `peakElevation ≥ minElevation`;
moreover `startTime < endTime` strictly. -/
theorem calculateSatellitePasses_peak_invariants {S : Type} (sjs : SatelliteJs ℚ S)
    (m : JsMath) (satellites : List SatelliteData) (location : GeoLocation)
    (startTime : ℤ) (durationHours minElevation : ℚ) (p : SatellitePass)
    (hp : p ∈ calculateSatellitePasses sjs m satellites location startTime
      durationHours minElevation) :
    p.startTime ≤ p.peakTime ∧ p.peakTime ≤ p.endTime ∧
      minElevation ≤ p.peakElevation ∧ p.startTime < p.endTime := by
  obtain ⟨sat, hs, hp2⟩ := mem_calculateSatellitePasses hp
  have h := mem_scanSatellite_closedOk p hp2
  exact ⟨h.1, h.2.1, h.2.2.1, h.2.2.2.2.2.1⟩

/-- Claim C4: every pass emitted by `calculateSatellitePasses` has
duration strictly greater than one minute, where the duration is exactly
`(endTime - startTime)` in minutes — both for falling-edge passes and for
passes truncated at the window boundary. -/
theorem calculateSatellitePasses_min_duration {S : Type} (sjs : SatelliteJs ℚ S)
    (m : JsMath) (satellites : List SatelliteData) (location : GeoLocation)
    (startTime : ℤ) (durationHours minElevation : ℚ) (p : SatellitePass)
    (hp : p ∈ calculateSatellitePasses sjs m satellites location startTime
      durationHours minElevation) :
    1 < p.duration ∧ p.duration = ((p.endTime - p.startTime : ℤ) : ℚ) / (1000 * 60) := by
  obtain ⟨sat, hs, hp2⟩ := mem_calculateSatellitePasses hp
  have h := mem_scanSatellite_closedOk p hp2
  exact ⟨h.2.2.2.1, h.2.2.2.2.1⟩

/-- Floor characterization used for `Math.round(azimuth / 45)`: the
rounded value is `k` exactly on `[45k - 22.5, 45k + 22.5)`. -/
theorem floor_half_shift (az : ℚ) (k : ℤ) (hlo : (k : ℚ) * 45 - 45/2 ≤ az)
    (hhi : az < (k : ℚ) * 45 + 45/2) : ⌊az / 45 + 1/2⌋ = k := by
  have h45 : (0:ℚ) < 45 := by norm_num
  rw [show az / 45 + 1/2 = (az + 45/2) / 45 by ring]
  rw [Int.floor_eq_iff]
  constructor
  · rw [le_div_iff₀ h45]
    linarith
  · rw [div_lt_iff₀ h45]
    linarith

/-- Compass lookup `getCompassDirection` through the mathematical floor of
`azimuth / 45 + 1/2`. -/
theorem getCompassDirection_floor (az : ℚ) (k : ℤ) (hk : ⌊az / 45 + 1/2⌋ = k) :
    getCompassDirection az =
      (if Int.tmod k 8 < 0 then "undefined"
       else compassDirections.getD (Int.tmod k 8).toNat "undefined") := by
  unfold getCompassDirection jsRound
  rw [ratFloor_eq_floor, hk]

/-- Claim C6: (a) every emitted pass's `direction` is
`compass(startAzimuth) ++ " to " ++ compass(endAzimuth)`, with the
azimuths re-queried from the visibility evaluator at the pass boundaries;
(b) on `[0°, 360°)` the bucketing `round(azimuth/45) mod 8` realizes the
eight 45°-wide sectors centered on N/NE/E/SE/S/SW/W/NW; (c) a pass from
azimuth 10° to azimuth 170° is labeled `"N to S"`. -/
theorem calculateSatellitePasses_compass {S : Type} (sjs : SatelliteJs ℚ S)
    (m : JsMath) (satellites : List SatelliteData) (location : GeoLocation)
    (startTime : ℤ) (durationHours minElevation : ℚ) :
    (∀ p ∈ calculateSatellitePasses sjs m satellites location startTime
        durationHours minElevation,
      ∃ satellite ∈ satellites,
        p.direction =
          getDirection (isSatelliteVisible sjs m satellite location p.startTime).azimuth
            (isSatelliteVisible sjs m satellite location p.endTime).azimuth) ∧
    (∀ azimuth : ℚ, 0 ≤ azimuth → azimuth < 360 →
      getCompassDirection azimuth =
        (if azimuth < 45/2 then "N"
         else if azimuth < 135/2 then "NE"
         else if azimuth < 225/2 then "E"
         else if azimuth < 315/2 then "SE"
         else if azimuth < 405/2 then "S"
         else if azimuth < 495/2 then "SW"
         else if azimuth < 585/2 then "W"
         else if azimuth < 675/2 then "NW"
         else "N")) ∧
    getDirection 10 170 = "N to S" := by
  refine ⟨?_, ?_, by decide⟩
  · intro p hp
    obtain ⟨sat, hs, hp2⟩ := mem_calculateSatellitePasses hp
    exact ⟨sat, hs, (mem_scanSatellite_closedOk p hp2).2.2.2.2.2.2⟩
  · intro az h0 h360
    by_cases h1 : az < 45/2
    · rw [getCompassDirection_floor az 0
        (floor_half_shift az 0 (by push_cast; linarith) (by push_cast; linarith))]
      rw [if_pos h1]
      decide
    · by_cases h2 : az < 135/2
      · rw [getCompassDirection_floor az 1
          (floor_half_shift az 1 (by push_cast; linarith) (by push_cast; linarith))]
        rw [if_neg h1, if_pos h2]
        decide
      · by_cases h3 : az < 225/2
        · rw [getCompassDirection_floor az 2
            (floor_half_shift az 2 (by push_cast; linarith) (by push_cast; linarith))]
          rw [if_neg h1, if_neg h2, if_pos h3]
          decide
        · by_cases h4 : az < 315/2
          · rw [getCompassDirection_floor az 3
              (floor_half_shift az 3 (by push_cast; linarith) (by push_cast; linarith))]
            rw [if_neg h1, if_neg h2, if_neg h3, if_pos h4]
            decide
          · by_cases h5 : az < 405/2
            · rw [getCompassDirection_floor az 4
                (floor_half_shift az 4 (by push_cast; linarith) (by push_cast; linarith))]
              rw [if_neg h1, if_neg h2, if_neg h3, if_neg h4, if_pos h5]
              decide
            · by_cases h6 : az < 495/2
              · rw [getCompassDirection_floor az 5
                  (floor_half_shift az 5 (by push_cast; linarith) (by push_cast; linarith))]
                rw [if_neg h1, if_neg h2, if_neg h3, if_neg h4, if_neg h5, if_pos h6]
                decide
              · by_cases h7 : az < 585/2
                · rw [getCompassDirection_floor az 6
                    (floor_half_shift az 6 (by push_cast; linarith) (by push_cast; linarith))]
                  rw [if_neg h1, if_neg h2, if_neg h3, if_neg h4, if_neg h5, if_neg h6,
                    if_pos h7]
                  decide
                · by_cases h8 : az < 675/2
                  · rw [getCompassDirection_floor az 7
                      (floor_half_shift az 7 (by push_cast; linarith) (by push_cast; linarith))]
                    rw [if_neg h1, if_neg h2, if_neg h3, if_neg h4, if_neg h5, if_neg h6,
                      if_neg h7, if_pos h8]
                    decide
                  · rw [getCompassDirection_floor az 8
                      (floor_half_shift az 8 (by push_cast; linarith) (by push_cast; linarith))]
                    rw [if_neg h1, if_neg h2, if_neg h3, if_neg h4, if_neg h5, if_neg h6,
                      if_neg h7, if_neg h8]
                    decide

/-- When every sample of a nonempty grid is visible, the scan never
closes: after the fold the pass list is empty, a pass opened at the first
sample is still current, and `wasVisible` holds. -/
theorem foldl_allVisible {S : Type} {sjs : SatelliteJs ℚ S} {m : JsMath}
    {satellite : SatelliteData} {location : GeoLocation} {minElevation : ℚ}
    (s : ℤ) :
    ∀ n : ℕ, 0 < n →
    (∀ t ∈ sampleTimes s n,
      isVisibleSample sjs m satellite location minElevation t = true) →
    ∃ (cp : OpenPass) (pe : ℚ) (pt : ℤ),
      (sampleTimes s n).foldl (passScanStep sjs m satellite location minElevation)
          (initScanState s) =
        { passes := [], currentPass := some cp, wasVisible := true,
          peakElevation := pe, peakTime := pt } ∧ cp.startTime = s := by
  intro n
  induction n with
  | zero => intro h; exact absurd h (by norm_num)
  | succ n ih =>
    intro _ hvis
    by_cases hn : n = 0
    · subst hn
      have hone : sampleTimes s 1 = [s] := by
        unfold sampleTimes
        rw [show List.range 1 = [0] from rfl]
        norm_num
      rw [hone, List.foldl_cons, List.foldl_nil]
      rw [passScanStep_open (hvis s (by rw [hone]; exact List.mem_singleton.mpr rfl)) rfl]
      exact ⟨_, _, _, rfl, rfl⟩
    · have hpos : 0 < n := Nat.pos_of_ne_zero hn
      have hsplit : sampleTimes s (n + 1) = sampleTimes s n ++ [s + 60000 * (n : ℤ)] := by
        simp [sampleTimes, List.range_succ]
      have hsub : ∀ t ∈ sampleTimes s n,
          isVisibleSample sjs m satellite location minElevation t = true := by
        intro t ht
        refine hvis t ?_
        rw [hsplit]
        exact List.mem_append_left _ ht
      obtain ⟨cp, pe, pt, hfold, hstart⟩ := ih hpos hsub
      have hv : isVisibleSample sjs m satellite location minElevation
          (s + 60000 * (n : ℤ)) = true := by
        refine hvis _ ?_
        rw [hsplit]
        exact List.mem_append_right _ (List.mem_singleton.mpr rfl)
      rw [hsplit, List.foldl_append, hfold, List.foldl_cons, List.foldl_nil]
      by_cases hpk : pe < (isSatelliteVisible sjs m satellite location
          (s + 60000 * (n : ℤ))).elevation
      · rw [passScanStep_inside_update hv rfl rfl hpk]
        exact ⟨_, _, _, rfl, hstart⟩
      · rw [passScanStep_inside_keep hv rfl rfl hpk]
        exact ⟨cp, pe, pt, rfl, hstart⟩

/-- Claim C5: if the object is visible at every sample of the window and
the window is longer than one minute, the scan reaching the window end
while the pass is still open finalizes it at the window boundary: exactly
one pass is emitted, starting at the window start, ending exactly at the
window boundary, with duration the full window length in minutes (for a
720-minute window: 720 minutes — see the witness). -/
theorem calculateSatellitePasses_boundary_truncation {S : Type}
    (sjs : SatelliteJs ℚ S) (m : JsMath) (satellite : SatelliteData)
    (location : GeoLocation) (startTime : ℤ) (durationHours minElevation : ℚ)
    (hvis : ∀ t ∈ sampleTimes startTime
        (numSamples startTime (windowEnd startTime durationHours)),
      isVisibleSample sjs m satellite location minElevation t = true)
    (hdur : 60000 < windowEnd startTime durationHours - startTime) :
    (calculateSatellitePasses sjs m [satellite] location startTime durationHours
        minElevation).length = 1 ∧
    ∀ p ∈ calculateSatellitePasses sjs m [satellite] location startTime durationHours
        minElevation,
      p.startTime = startTime ∧ p.endTime = windowEnd startTime durationHours ∧
        p.duration = ((windowEnd startTime durationHours - startTime : ℤ) : ℚ) /
          (1000 * 60) := by
  have hn : 0 < numSamples startTime (windowEnd startTime durationHours) := by
    unfold numSamples
    rw [if_neg (by omega)]
    omega
  obtain ⟨cp, pe, pt, hfold, hstart⟩ := foldl_allVisible startTime _ hn hvis
  have hdq : (1 : ℚ) <
      ((windowEnd startTime durationHours - cp.startTime : ℤ) : ℚ) / (1000 * 60) := by
    rw [hstart, lt_div_iff₀ (by norm_num : (0:ℚ) < 1000 * 60)]
    have h60 : (60000 : ℚ) <
        ((windowEnd startTime durationHours - startTime : ℤ) : ℚ) := by
      exact_mod_cast hdur
    linarith
  have hg : (decide (((windowEnd startTime durationHours - cp.startTime : ℤ) : ℚ) /
        (1000 * 60) ≠ 0) &&
      decide (1 < ((windowEnd startTime durationHours - cp.startTime : ℤ) : ℚ) /
        (1000 * 60))) = true := by
    rw [Bool.and_eq_true]
    exact ⟨decide_eq_true (by linarith), decide_eq_true hdq⟩
  have hscan : scanSatellite sjs m satellite location startTime durationHours
      minElevation =
      [finalizePass sjs m satellite location cp (windowEnd startTime durationHours)] := by
    simp only [scanSatellite]
    rw [hfold]
    simp only [if_pos hg, List.nil_append]
  have hcalc : calculateSatellitePasses sjs m [satellite] location startTime
      durationHours minElevation =
      [finalizePass sjs m satellite location cp (windowEnd startTime durationHours)] := by
    unfold calculateSatellitePasses
    rw [List.foldl_cons, List.foldl_nil, List.nil_append, hscan]
    exact List.mergeSort_singleton _
  rw [hcalc]
  refine ⟨rfl, ?_⟩
  intro p hp
  cases List.mem_singleton.mp hp
  refine ⟨hstart, rfl, ?_⟩
  simp only [finalizePass]
  rw [hstart]

/-- When every sample is invisible, the scanner state never leaves its
initial value. -/
theorem foldl_allInvisible {S : Type} {sjs : SatelliteJs ℚ S} {m : JsMath}
    {satellite : SatelliteData} {location : GeoLocation} {minElevation : ℚ}
    (s : ℤ) (l : List ℤ)
    (hinv : ∀ t ∈ l, isVisibleSample sjs m satellite location minElevation t = false) :
    l.foldl (passScanStep sjs m satellite location minElevation) (initScanState s) =
      initScanState s := by
  induction l with
  | nil => rfl
  | cons t rest ih =>
    rw [List.foldl_cons,
      passScanStep_outside (hinv t (List.mem_cons_self t rest)) rfl]
    exact ih (fun u hu => hinv u (List.mem_cons_of_mem t hu))

/-- Claim C8 (amended): a Position Provider that throws for one object's
elements at every queried time makes every one of that object's samples
"not visible" (the exception is absorbed inside `isSatelliteVisible`), so
the object contributes zero passes, and removing it from the batch leaves
the output of `calculateSatellitePasses` unchanged — the other objects'
passes are computed and returned as if the failing object were absent.
(A provider error does *not* abort the object's whole scan: see the
counterexample, where an error at a single sample still lets the object
contribute passes.) -/
theorem calculateSatellitePasses_provider_error_isolated {S : Type}
    (sjs : SatelliteJs ℚ S) (m : JsMath) (location : GeoLocation) (startTime : ℤ)
    (durationHours minElevation : ℚ) (pre post : List SatelliteData)
    (s : SatelliteData)
    (hfail : ∀ t : ℤ, sjs.propagate (satrecOf sjs s.tle) t = PropResult.throws) :
    scanSatellite sjs m s location startTime durationHours minElevation = [] ∧
    calculateSatellitePasses sjs m (pre ++ s :: post) location startTime
        durationHours minElevation =
      calculateSatellitePasses sjs m (pre ++ post) location startTime
        durationHours minElevation := by
  have hinv : ∀ t : ℤ,
      isVisibleSample sjs m s location minElevation t = false := by
    intro t
    unfold isVisibleSample
    rw [isSatelliteVisible_failure sjs m s location t (Or.inl (hfail t))]
    rfl
  have hscan : scanSatellite sjs m s location startTime durationHours
      minElevation = [] := by
    simp only [scanSatellite]
    rw [foldl_allInvisible startTime _ (fun t _ => hinv t)]
    rfl
  refine ⟨hscan, ?_⟩
  unfold calculateSatellitePasses
  rw [foldl_append_flatten, foldl_append_flatten]
  simp only [List.map_append, List.map_cons, List.flatten_append, List.flatten_cons,
    hscan, List.nil_append]

/-- Claim C8, counterexample: the provider `wSjsErr1` throws at epoch
millisecond 300000, in the middle of a 10-minute scan of `wSat`, yet the
object contributes two passes (the error only ends the first pass early
and a second pass opens afterwards) — not zero passes as claimed. -/
theorem provider_error_mid_scan_counterexample :
    wSjsErr1.propagate (satrecOf wSjsErr1 wSat.tle) 300000 = PropResult.throws ∧
      (scanSatellite wSjsErr1 wMath wSat wLoc 0 (1/6) 10).length = 2 := by
  exact ⟨rfl, by decide⟩

/-- Witness for C8 (amended) with a provider failing exactly for `wSat`'s
elements while `wSatB` stays visible. -/
theorem calculateSatellitePasses_provider_error_isolated_witness :
    (∀ t : ℤ, wSjsFail.propagate (satrecOf wSjsFail wSat.tle) t = PropResult.throws) ∧
    scanSatellite wSjsFail wMath wSat wLoc 0 (1/6) 10 = [] ∧
    calculateSatellitePasses wSjsFail wMath ([] ++ wSat :: [wSatB]) wLoc 0 (1/6) 10 =
      calculateSatellitePasses wSjsFail wMath ([] ++ [wSatB]) wLoc 0 (1/6) 10 := by
  have hfail : ∀ t : ℤ,
      wSjsFail.propagate (satrecOf wSjsFail wSat.tle) t = PropResult.throws :=
    fun _ => rfl
  have h := calculateSatellitePasses_provider_error_isolated wSjsFail wMath wLoc 0
    (1/6) 10 [] [wSatB] wSat hfail
  exact ⟨hfail, h.1, h.2⟩

/-- Claim C9: `calculateSatellitePasses` is a pure function of its inputs
— two calls with identical satellites, observer, start time, duration,
threshold and (deterministic) provider yield identical output sequences —
and the combined output is ordered by `startTime` across all objects. -/
theorem calculateSatellitePasses_idempotent_sorted {S : Type}
    (sjs : SatelliteJs ℚ S) (m : JsMath) (satellites : List SatelliteData)
    (location : GeoLocation) (startTime : ℤ) (durationHours minElevation : ℚ) :
    calculateSatellitePasses sjs m satellites location startTime durationHours
        minElevation =
      calculateSatellitePasses sjs m satellites location startTime durationHours
        minElevation ∧
    List.Sorted (fun a b : SatellitePass => a.startTime ≤ b.startTime)
      (calculateSatellitePasses sjs m satellites location startTime durationHours
        minElevation) := by
  refine ⟨rfl, ?_⟩
  unfold calculateSatellitePasses
  have h := @List.sorted_mergeSort SatellitePass
    (fun a b => decide (a.startTime ≤ b.startTime))
    (fun a b c hab hbc =>
      decide_eq_true (le_trans (of_decide_eq_true hab) (of_decide_eq_true hbc)))
    (fun a b => by rcases le_total a.startTime b.startTime with h | h <;> simp [h])
    (satellites.foldl
      (fun acc satellite =>
        acc ++ scanSatellite sjs m satellite location startTime durationHours
          minElevation) [])
  exact h.imp (fun hab => of_decide_eq_true hab)

/-- The concrete 10-minute scan of `wSat` under `wSjsPass` yields exactly
the pass `wPass` (computed by kernel evaluation; shared by the witnesses
below). -/
theorem wScan_eval :
    calculateSatellitePasses wSjsPass wMath [wSat] wLoc 0 (1/6) 10 = [wPass] := by
  have h1 : [wSat].foldl
      (fun acc satellite =>
        acc ++ scanSatellite wSjsPass wMath satellite wLoc 0 (1/6) 10) [] =
      [wPass] := by decide
  simp only [calculateSatellitePasses]
  rw [h1]
  exact List.mergeSort_singleton _

/-- Witness for C3 on the concrete emitted pass `wPass`. -/
theorem calculateSatellitePasses_peak_invariants_witness :
    wPass ∈ calculateSatellitePasses wSjsPass wMath [wSat] wLoc 0 (1/6) 10 ∧
      (wPass.startTime ≤ wPass.peakTime ∧ wPass.peakTime ≤ wPass.endTime ∧
        (10 : ℚ) ≤ wPass.peakElevation ∧ wPass.startTime < wPass.endTime) := by
  have hm : wPass ∈ calculateSatellitePasses wSjsPass wMath [wSat] wLoc 0 (1/6) 10 := by
    rw [wScan_eval]
    exact List.mem_singleton.mpr rfl
  exact ⟨hm, calculateSatellitePasses_peak_invariants wSjsPass wMath [wSat] wLoc 0
    (1/6) 10 wPass hm⟩

/-- Witness for C4 on the concrete emitted pass `wPass`. -/
theorem calculateSatellitePasses_min_duration_witness :
    wPass ∈ calculateSatellitePasses wSjsPass wMath [wSat] wLoc 0 (1/6) 10 ∧
      1 < wPass.duration ∧
      wPass.duration = ((wPass.endTime - wPass.startTime : ℤ) : ℚ) / (1000 * 60) := by
  have hm : wPass ∈ calculateSatellitePasses wSjsPass wMath [wSat] wLoc 0 (1/6) 10 := by
    rw [wScan_eval]
    exact List.mem_singleton.mpr rfl
  have h := calculateSatellitePasses_min_duration wSjsPass wMath [wSat] wLoc 0
    (1/6) 10 wPass hm
  exact ⟨hm, h.1, h.2⟩

/-- Witness for C6: the direction of the concrete pass `wPass`, the sector
of azimuth 10°, and the `"N to S"` scenario. -/
theorem calculateSatellitePasses_compass_witness :
    (∃ satellite ∈ [wSat],
      wPass.direction =
        getDirection (isSatelliteVisible wSjsPass wMath satellite wLoc
            wPass.startTime).azimuth
          (isSatelliteVisible wSjsPass wMath satellite wLoc wPass.endTime).azimuth) ∧
    getCompassDirection 10 = "N" ∧ getDirection 10 170 = "N to S" := by
  have h := calculateSatellitePasses_compass wSjsPass wMath [wSat] wLoc 0 (1/6) 10
  have hm : wPass ∈ calculateSatellitePasses wSjsPass wMath [wSat] wLoc 0 (1/6) 10 := by
    rw [wScan_eval]
    exact List.mem_singleton.mpr rfl
  refine ⟨h.1 wPass hm, ?_, h.2.2⟩
  have h2 := h.2.1 10 (by norm_num) (by norm_num)
  rw [h2]
  decide

/-- Witness for C5: a satellite visible at every sample of the 720-minute
window `durationHours = 12` starting at epoch 0 yields exactly one pass
ending at the window boundary 43200000 ms with duration 720 minutes. -/
theorem calculateSatellitePasses_boundary_truncation_witness :
    (∀ t ∈ sampleTimes 0 (numSamples 0 (windowEnd 0 12)),
      isVisibleSample wSjsAll wMath wSat wLoc 10 t = true) ∧
    ((60000 : ℤ) < windowEnd 0 12 - 0) ∧
    (calculateSatellitePasses wSjsAll wMath [wSat] wLoc 0 12 10).length = 1 ∧
    (∀ p ∈ calculateSatellitePasses wSjsAll wMath [wSat] wLoc 0 12 10,
      p.startTime = 0 ∧ p.endTime = windowEnd 0 12 ∧
        p.duration = ((windowEnd 0 12 - 0 : ℤ) : ℚ) / (1000 * 60)) ∧
    windowEnd 0 12 = 43200000 ∧
    ((windowEnd 0 12 - 0 : ℤ) : ℚ) / (1000 * 60) = 720 := by
  have hvis : ∀ t ∈ sampleTimes 0 (numSamples 0 (windowEnd 0 12)),
      isVisibleSample wSjsAll wMath wSat wLoc 10 t = true := by
    intro t _
    unfold isVisibleSample isSatelliteVisible
    simp only [satrecOf, wSjsAll, wMath, wLoc, Bool.and_eq_true, decide_eq_true_eq]
    norm_num
  have hdur : (60000 : ℤ) < windowEnd 0 12 - 0 := by decide
  have h := calculateSatellitePasses_boundary_truncation wSjsAll wMath wSat wLoc 0
    12 10 hvis hdur
  exact ⟨hvis, hdur, h.1, h.2, by decide, by decide⟩

end SatTrack
